import Mathlib

/-! Verification development for the Discord bot messenger dashboard
(`src/app.py`).  The Python helpers are embedded shallowly: pure helpers
become Lean functions, the `requests` network layer becomes an explicit
oracle value passed in (a response with status code, raw text and parsed
body, or a transport-level failure), and Streamlit UI calls become lists
of rendered elements / notices.  Machine-side effects (writing the JSON
config file, clearing query parameters) are recorded explicitly in the
returned values.
-/

/-- Python truthiness of an optional string value (`config.get(k)` used in a
boolean context): a key that is absent, or maps to the empty string, is falsy. -/
def pyTruthy : Option String → Bool
  | some s => s != ""
  | none => false

/-- Model of the Python idiom `d.get(k1) or d.get(k2, default)`: the first
value is chosen when it is present and truthy (non-empty), otherwise the
second when present, otherwise the default.  Note that a present-but-empty
second value is returned as-is (the default only covers absence). -/
def pyOr (first : Option String) (second : Option String) (default : String) : String :=
  match first with
  | some s => if s != "" then s else second.getD default
  | none => second.getD default

/-- A record of `authorized_users` (`src/app.py`): `id` is always present
(`u["id"]` is indexed directly), the remaining keys are read with `.get`. -/
structure UserRecord where
  id : String
  username : Option String
  global_name : Option String
  dm_channel_id : Option String
  authorized_at : Option String
deriving DecidableEq, Repr

/-- The configuration JSON document.  `none` models an absent key. -/
structure Config where
  guild_id : Option String
  channel_id : Option String
  channel_name : Option String
  authorized_users : Option (List UserRecord)
  dm_user_id : Option String
  dm_channel_id : Option String
  dm_username : Option String
deriving DecidableEq, Repr

/-- The empty configuration (`load_config` on a missing file returns `{}`). -/
def emptyConfig : Config :=
  { guild_id := none, channel_id := none, channel_name := none,
    authorized_users := none, dm_user_id := none, dm_channel_id := none,
    dm_username := none }

/-- Embedding of `migrate_config` (`src/app.py` lines 179-195).  The guard is
`if old_user_id and "authorized_users" not in config`: the legacy
`dm_user_id` value must be truthy (present and non-empty) and the
`authorized_users` key must be absent.  `now` stands for
`datetime.now(timezone.utc).isoformat()`.  The `save_config(config)` call
inside the branch persists exactly the returned value; persistence itself is
outside this model. -/
def migrate_config (config : Config) (now : String) : Config :=
  match config.dm_user_id with
  | some old_user_id =>
    if old_user_id != "" && config.authorized_users == none then
      { config with
        authorized_users := some [{
          id := old_user_id,
          username := some (config.dm_username.getD ""),
          global_name := some (config.dm_username.getD ""),
          dm_channel_id := some (config.dm_channel_id.getD ""),
          authorized_at := some now }],
        dm_user_id := none,
        dm_channel_id := none,
        dm_username := none }
    else config
  | none => config

/-- The loop body of `add_authorized_user` (`src/app.py` lines 165-176): scan
the list, replace the first record with a matching `id` and stop; append when
no record matches. -/
def upsertById (user_record : UserRecord) : List UserRecord → List UserRecord
  | [] => [user_record]
  | u :: us =>
    if u.id == user_record.id then user_record :: us
    else u :: upsertById user_record us

/-- Embedding of `add_authorized_user` (`src/app.py` lines 165-176):
`users = config.get("authorized_users", [])`, insert-or-update by id, write
the list back under the `authorized_users` key. -/
def add_authorized_user (config : Config) (user_record : UserRecord) : Config :=
  { config with
    authorized_users := some (upsertById user_record (config.authorized_users.getD [])) }

/-- A guild channel entry as returned by the channel-list endpoint
(`src/app.py` lines 39-47): `ch["type"]` is indexed directly, `position` is
read with `ch.get("position", 0)` so it may be absent. -/
structure Channel where
  id : String
  name : String
  type : Int
  position : Option Int
deriving DecidableEq, Repr

/-- The sort key of `get_guild_channels`: `ch.get("position", 0)`. -/
def posKey (ch : Channel) : Int := ch.position.getD 0

/-- The comparison used by `sorted(..., key=lambda ch: ch.get("position", 0))`. -/
def channelLE (a b : Channel) : Prop := posKey a ≤ posKey b

instance : DecidableRel channelLE := fun a b =>
  inferInstanceAs (Decidable (posKey a ≤ posKey b))

instance : IsTotal Channel channelLE := ⟨fun a b => Int.le_total (posKey a) (posKey b)⟩

instance : IsTrans Channel channelLE := ⟨fun _ _ _ => Int.le_trans⟩

/-- Outcome of one `requests` call: a completed HTTP response (status code,
raw text, and the body parsed at the type the endpoint expects), or a
transport-level `requests.RequestException`. -/
inductive NetResult (α : Type) where
  | response (status : Nat) (text : String) (body : α)
  | netError (msg : String)
deriving DecidableEq

/-- The two error kinds of the app: an HTTP error response
(`requests.HTTPError`, carrying status and body text) and a network-layer
failure (`requests.RequestException`). -/
inductive ApiError where
  | http (status : Nat) (text : String)
  | network (msg : String)
deriving DecidableEq, Repr

/-- Semantics of `resp.raise_for_status()`: `requests` raises `HTTPError`
exactly when `400 <= status_code < 600`. -/
def raiseForStatus (status : Nat) : Bool := 400 ≤ status && status < 600

/-- Embedding of `get_guild_channels` (`src/app.py` lines 39-47): propagate a
transport failure, raise on an HTTP error status, otherwise keep only entries
with `type == 0` and sort them ascending by `ch.get("position", 0)`.  Python
`sorted` is a stable ascending sort, which is modelled by
`List.insertionSort` (also stable and ascending; the output of a stable
ascending sort is unique, so the two agree). -/
def get_guild_channels (resp : NetResult (List Channel)) : Except ApiError (List Channel) :=
  match resp with
  | .netError m => .error (.network m)
  | .response status text body =>
    if raiseForStatus status then .error (.http status text)
    else .ok (List.insertionSort channelLE (body.filter (fun ch => ch.type == 0)))

/-- The body of a DM-channel creation response: `dm_channel["id"]`. -/
structure DmChannel where
  id : String
deriving DecidableEq, Repr

/-- Embedding of `open_dm_channel` (`src/app.py` lines 59-68):
`raise_for_status` then return the parsed body. -/
def open_dm_channel (resp : NetResult DmChannel) : Except ApiError DmChannel :=
  match resp with
  | .netError m => .error (.network m)
  | .response status text body =>
    if raiseForStatus status then .error (.http status text) else .ok body

/-- The author object of a message (`msg.get("author", {})`): every key is
read with `.get`, so all fields may be absent. -/
structure Author where
  id : Option String
  global_name : Option String
  username : Option String
deriving DecidableEq, Repr

/-- A message entry as consumed by `display_messages`: `author`, `content`
and `timestamp` are all read with `.get`. -/
structure Message where
  author : Option Author
  content : Option String
  timestamp : Option String
deriving DecidableEq, Repr

/-- Embedding of `get_messages` (`src/app.py` lines 71-75): `raise_for_status`
then return the parsed body (newest first, as delivered by the API). -/
def get_messages (resp : NetResult (List Message)) : Except ApiError (List Message) :=
  match resp with
  | .netError m => .error (.network m)
  | .response status text body =>
    if raiseForStatus status then .error (.http status text) else .ok body

/-- A JSON scalar, as far as the app inspects response bodies
(`resp.json().get("retry_after", ...)`). -/
inductive JVal where
  | jnum (n : Int)
  | jstr (s : String)
deriving DecidableEq, Repr

/-- How a JSON scalar renders inside a Python f-string. -/
def jShow : JVal → String
  | .jnum n => toString n
  | .jstr s => s

/-- Model of `resp.json().get(key, default)` followed by f-string
interpolation: the looked-up scalar rendered as text, or the default. -/
def jsonGetD (obj : List (String × JVal)) (key : String) (default : String) : String :=
  match obj.lookup key with
  | some v => jShow v
  | none => default

/-- An HTTP response to the message-send POST: status code, the JSON object
body (consulted only on 429) and the raw text (shown on generic errors). -/
structure SendResponse where
  status_code : Nat
  jsonObj : List (String × JVal)
  text : String
deriving DecidableEq

/-- Outcome of the send POST: a response, or a transport failure. -/
inductive SendNet where
  | resp (r : SendResponse)
  | exn (msg : String)
deriving DecidableEq

/-- Embedding of `send_message` (`src/app.py` lines 50-56): it issues the
POST and returns whatever came back, with no `raise_for_status` call — a
transport failure is the only way it fails, and every status code is handed
back to the caller unchanged. -/
def send_message (net : SendNet) : SendNet := net

/-- A Streamlit feedback element (`st.error` / `st.success` / `st.info`). -/
inductive Notice where
  | error (msg : String)
  | success (msg : String)
  | info (msg : String)
deriving DecidableEq, Repr

/-- Whitespace for Python `str.strip()`: the Unicode whitespace class of
CPython (`Py_UNICODE_ISSPACE`) — TAB through CR (U+0009-U+000D), the
FS/GS/RS/US controls and the space (U+001C-U+0020), NEL (U+0085),
NO-BREAK SPACE (U+00A0), OGHAM SPACE MARK (U+1680), the space separators
U+2000-U+200A, LINE and PARAGRAPH SEPARATOR (U+2028, U+2029), NARROW
NO-BREAK SPACE (U+202F), MEDIUM MATHEMATICAL SPACE (U+205F) and
IDEOGRAPHIC SPACE (U+3000). -/
def isPySpace (c : Char) : Bool :=
  let n := c.toNat
  (0x09 ≤ n && n ≤ 0x0d) || (0x1c ≤ n && n ≤ 0x20)
    || n == 0x85 || n == 0xa0 || n == 0x1680
    || (0x2000 ≤ n && n ≤ 0x200a) || n == 0x2028 || n == 0x2029
    || n == 0x202f || n == 0x205f || n == 0x3000

/-- The guard `if not content.strip()`: true exactly when the text is empty
or consists only of whitespace. -/
def strippedEmpty (s : String) : Bool := s.toList.all isPySpace

/-- Embedding of `send_and_report` (`src/app.py` lines 100-119).  The result
pairs the emitted notices with the number of times `send_message` was called
(`0` when the empty-message guard fires, `1` otherwise — the code never
retries).  `net` is the outcome the network returns for the single POST. -/
def send_and_report (content : String) (net : SendNet) : List Notice × Nat :=
  if strippedEmpty content then ([.error "Message cannot be empty."], 0)
  else
    match send_message net with
    | .exn m => ([.error ("Network error: " ++ m)], 1)
    | .resp r =>
      if r.status_code = 200 then ([.success "Message sent!"], 1)
      else if r.status_code = 429 then
        ([.error ("Rate limited. Retry after " ++ jsonGetD r.jsonObj "retry_after" "a few" ++ " seconds.")], 1)
      else if r.status_code = 403 then
        ([.error "Bot lacks permission to send messages here. Check bot roles in Discord."], 1)
      else if r.status_code = 404 then
        ([.error "Channel not found. It may have been deleted — try reloading."], 1)
      else
        ([.error ("Discord API error (" ++ toString r.status_code ++ "): " ++ r.text)], 1)

/-- The OAuth2 token-exchange response, as far as the callback uses it
(`token_data["access_token"]`). -/
structure TokenData where
  access_token : String
deriving DecidableEq

/-- The identity returned by the bearer-token user lookup: `user_data["id"]`
is indexed directly, `username` and `global_name` are read with `.get`. -/
structure OAuthUser where
  id : String
  username : Option String
  global_name : Option String
deriving DecidableEq

/-- Outcome of one step of the OAuth2 callback sequence: success, an HTTP
error response (`requests.HTTPError`), or a transport failure
(`requests.RequestException`). -/
inductive StepResult (α : Type) where
  | ok (value : α)
  | httpError (status : Nat) (text : String)
  | netError (msg : String)
deriving DecidableEq

/-- Whether a step completed without raising. -/
def StepResult.isOk {α : Type} : StepResult α → Bool
  | .ok _ => true
  | _ => false

/-- The observable outcome of the OAuth2 callback handler: what was written
to the config file (`none` when `save_config` never ran), whether the query
parameters were cleared, and the notices rendered.  Every path ends in
`st.stop()`, so the handler always halts the render cycle. -/
structure CallbackOutcome where
  persisted : Option Config
  queryCleared : Bool
  notices : List Notice
deriving DecidableEq

/-- Embedding of the OAuth2 callback handler (`src/app.py` lines 459-498).
The three network steps — `exchange_code_for_token`, `get_oauth_user`,
`open_dm_channel` — are oracles; the `try` block runs them in order, builds
the user record, upserts it, optionally stores the guild id, and only then
calls `save_config`.  Either `except` arm clears the query parameters and
shows an error without persisting anything.  `now` models the fresh
`authorized_at` timestamp. -/
def oauth_callback (config : Config) (oauth_guild_id : String) (now : String)
    (exchange : StepResult TokenData) (identity : StepResult OAuthUser)
    (dm : StepResult DmChannel) : CallbackOutcome :=
  match exchange with
  | .httpError s t => ⟨none, true, [.error ("OAuth2 error: " ++ toString s ++ " — " ++ t)]⟩
  | .netError m => ⟨none, true, [.error ("Network error during OAuth2: " ++ m)]⟩
  | .ok _ =>
    match identity with
    | .httpError s t => ⟨none, true, [.error ("OAuth2 error: " ++ toString s ++ " — " ++ t)]⟩
    | .netError m => ⟨none, true, [.error ("Network error during OAuth2: " ++ m)]⟩
    | .ok user_data =>
      match dm with
      | .httpError s t => ⟨none, true, [.error ("OAuth2 error: " ++ toString s ++ " — " ++ t)]⟩
      | .netError m => ⟨none, true, [.error ("Network error during OAuth2: " ++ m)]⟩
      | .ok dm_channel =>
        let user_record : UserRecord := {
          id := user_data.id,
          username := some (user_data.username.getD ""),
          global_name := some (pyOr user_data.global_name user_data.username ""),
          dm_channel_id := some dm_channel.id,
          authorized_at := some now }
        let config1 := add_authorized_user config user_record
        let config2 :=
          if oauth_guild_id != "" then { config1 with guild_id := some oauth_guild_id }
          else config1
        ⟨some config2, true,
          [.success ("Connected: **" ++ pyOr user_data.global_name user_data.username ""
              ++ "** (" ++ user_data.username.getD "" ++ ")"),
           .info "You\x27re all set! The bot can now send you direct messages.\n\nYou can close this page."]⟩

/-- A local wall-clock date and time, the output of
`datetime.fromisoformat(s).astimezone(tz=None)` truncated to the fields
`strftime("%Y-%m-%d %H:%M")` reads. -/
structure LocalDateTime where
  year : Nat
  month : Nat
  day : Nat
  hour : Nat
  minute : Nat
deriving DecidableEq, Repr

/-- Two-digit zero padding (`%m`, `%d`, `%H`, `%M`). -/
def pad2 (n : Nat) : String := if n < 10 then "0" ++ toString n else toString n

/-- Four-digit zero padding (`%Y`). -/
def pad4 (n : Nat) : String :=
  if n < 10 then "000" ++ toString n
  else if n < 100 then "00" ++ toString n
  else if n < 1000 then "0" ++ toString n
  else toString n

/-- Embedding of `ts.strftime("%Y-%m-%d %H:%M")`. -/
def strftimeYmdHm (t : LocalDateTime) : String :=
  pad4 t.year ++ "-" ++ pad2 t.month ++ "-" ++ pad2 t.day ++ " "
    ++ pad2 t.hour ++ ":" ++ pad2 t.minute

/-- One transcript line rendered by `display_messages`: the chat role passed
to `st.chat_message`, and the name, formatted time and raw content shown
inside it. -/
structure ChatLine where
  role : String
  name : String
  time : String
  content : String
deriving DecidableEq, Repr

/-- The author value when the `author` key is absent (`msg.get("author", {})`). -/
def emptyAuthor : Author := { id := none, global_name := none, username := none }

/-- The per-message body of the loop in `display_messages` (`src/app.py`
lines 84-97).  `localTime` is the oracle for
`datetime.fromisoformat(s).astimezone(tz=None)`: it yields the local-time
fields on success and `none` when the parse raises `ValueError` or
`TypeError` (the local timezone itself is environment state, so the
conversion is a parameter, while the `strftime` formatting is embedded
concretely). -/
def renderLine (bot_id : String) (localTime : String → Option LocalDateTime)
    (msg : Message) : ChatLine :=
  let author := msg.author.getD emptyAuthor
  let is_bot := author.id == some bot_id
  { role := if is_bot then "assistant" else "user",
    name := pyOr author.global_name author.username "Unknown",
    time :=
      match localTime (msg.timestamp.getD "") with
      | some t => strftimeYmdHm t
      | none => "",
    content := msg.content.getD "" }

/-- What `display_messages` renders: the empty-list placeholder caption, or
a transcript of chat lines. -/
inductive Rendered where
  | placeholder (text : String)
  | transcript (lines : List ChatLine)
deriving DecidableEq

/-- Embedding of `display_messages` (`src/app.py` lines 78-97): the empty
list yields the placeholder caption; otherwise the list (newest first) is
reversed to chronological order and each message becomes one chat line. -/
def display_messages (messages : List Message) (bot_id : String)
    (localTime : String → Option LocalDateTime) : Rendered :=
  if messages.isEmpty then .placeholder "No messages yet."
  else .transcript (messages.reverse.map (renderLine bot_id localTime))

/-- A Streamlit element rendered by `show_onboarding` (labels only; link
URLs are elided). -/
inductive El where
  | title (s : String)
  | subheader (s : String)
  | success (s : String)
  | markdown (s : String)
  | caption (s : String)
  | writeText (s : String)
  | linkButton (label : String)
  | actionButton (label : String)
deriving DecidableEq, Repr

/-- The display-name expression used for a stored user record:
`u.get("global_name") or u.get("username", "?")` — the same expression at
`src/app.py` line 349 (status summary), line 527 (recipient picker) and
line 598 (connected-users list). -/
def statusName (u : UserRecord) : String := pyOr u.global_name u.username "?"

/-- Embedding of `show_onboarding` (`src/app.py` lines 339-408).
`oauthAvailable` is the `OAUTH2_AVAILABLE` module flag and `sessionStep` the
`st.session_state.onboarding_step` slot (`none` on a fresh session, which the
code initialises to `"choose"`).  When at least one authorized user exists or
a channel is configured, the status summary renders and the function returns
before any wizard step; otherwise the wizard step selected by the session
state renders.  Buttons and link buttons appear as elements with their
labels; the trailing admin-dashboard caption is rendered on both paths. -/
def show_onboarding (config : Config) (oauthAvailable : Bool)
    (sessionStep : Option String) : List El :=
  let authorized_users := config.authorized_users.getD []
  let channel_configured := pyTruthy config.channel_id
  if !authorized_users.isEmpty || channel_configured then
    [El.title "Gopf Intel"]
    ++ (if !authorized_users.isEmpty then
          [El.success ("Connected: **"
            ++ String.intercalate ", " (authorized_users.map statusName) ++ "**")]
        else [])
    ++ (if channel_configured then
          [El.success ("Channel: **#" ++ config.channel_name.getD "?" ++ "**")]
        else [])
    ++ [El.markdown "[Open Admin Dashboard](?admin)"]
    ++ (if oauthAvailable then
          [El.caption "Connect another account:",
           El.linkButton (if pyTruthy config.guild_id then "Connect with Discord"
                          else "Add Bot & Connect")]
        else [])
    ++ [El.caption "[Admin Dashboard](?admin)"]
  else
    let step := sessionStep.getD "choose"
    [El.title "Gopf Intel"]
    ++ (if step == "choose" then
          [El.subheader "Trading Signals on Discord",
           El.writeText "How would you like to receive your signals?",
           El.actionButton "Direct Message",
           El.actionButton "Channel"]
        else if step == "dm" then
          [El.subheader "Step 1 of 2: Connect your Discord account"]
        else if step == "channel" then
          [El.subheader "Step 1 of 3: Add the bot to your server"]
        else [])
    ++ [El.caption "[Admin Dashboard](?admin)"]

/-- A configuration holding all three legacy DM keys, but with the empty
string as `dm_user_id`, and no `authorized_users` key. -/
def cOneBad : Config :=
  { emptyConfig with
    dm_user_id := some "", dm_channel_id := some "111",
    dm_username := some "legacy" }

/-- A legacy configuration with a non-empty `dm_user_id`. -/
def cOneLegacy : Config :=
  { emptyConfig with
    dm_user_id := some "42", dm_channel_id := some "777",
    dm_username := some "olduser" }

/-- C1, counterexample: `cOneBad` contains all three legacy DM fields and no
`authorized_users` key, yet `migrate_config` returns it unchanged — the guard
`if old_user_id` also demands a truthy (non-empty) `dm_user_id`, so no user
record is synthesised and the legacy fields are not removed. -/
theorem migrate_config_counterexample :
    cOneBad.dm_user_id = some "" ∧ cOneBad.dm_channel_id = some "111"
    ∧ cOneBad.dm_username = some "legacy" ∧ cOneBad.authorized_users = none
    ∧ migrate_config cOneBad "2024-06-01T00:00:00+00:00" = cOneBad
    ∧ (migrate_config cOneBad "2024-06-01T00:00:00+00:00").authorized_users = none
    ∧ (migrate_config cOneBad "2024-06-01T00:00:00+00:00").dm_user_id = some "" := by
  decide

/-- C1 (amended): for a configuration whose legacy DM fields are present with
a non-empty `dm_user_id` and which has no `authorized_users` key,
`migrate_config` yields exactly one user record, whose id equals the legacy
`dm_user_id`; the three legacy fields are removed; and applying
`migrate_config` a second time (with any later timestamp) changes nothing. -/
theorem migrate_config_spec (c : Config) (now now2 uid chv unv : String)
    (hid : c.dm_user_id = some uid) (hne : uid ≠ "")
    (_hch : c.dm_channel_id = some chv) (_hun : c.dm_username = some unv)
    (hau : c.authorized_users = none) :
    (∃ r : UserRecord, (migrate_config c now).authorized_users = some [r] ∧ r.id = uid)
    ∧ (migrate_config c now).dm_user_id = none
    ∧ (migrate_config c now).dm_channel_id = none
    ∧ (migrate_config c now).dm_username = none
    ∧ migrate_config (migrate_config c now) now2 = migrate_config c now := by
  have hb : (uid != "") = true := by simpa [bne_iff_ne] using hne
  simp only [migrate_config, hid, hau, hb, beq_self_eq_true, Bool.and_self, if_true]
  exact ⟨⟨_, rfl, rfl⟩, trivial, trivial, trivial, trivial⟩

/-- C1, witness: migrating a concrete legacy configuration. -/
theorem migrate_config_spec_witness :
    (∃ r : UserRecord,
        (migrate_config cOneLegacy "T0").authorized_users = some [r] ∧ r.id = "42")
    ∧ (migrate_config cOneLegacy "T0").dm_user_id = none
    ∧ (migrate_config cOneLegacy "T0").dm_channel_id = none
    ∧ (migrate_config cOneLegacy "T0").dm_username = none
    ∧ migrate_config (migrate_config cOneLegacy "T0") "T1" = migrate_config cOneLegacy "T0" :=
  migrate_config_spec cOneLegacy "T0" "T1" "42" "777" "olduser" rfl (by decide) rfl rfl rfl

/-- When the incoming id is already present (and ids are unique), the scan of
`add_authorized_user` replaces exactly the matching record, in place. -/
theorem upsertById_of_mem (r : UserRecord) (users : List UserRecord)
    (hnd : (users.map UserRecord.id).Nodup) (hmem : r.id ∈ users.map UserRecord.id) :
    upsertById r users = users.map (fun u => if u.id = r.id then r else u) := by
  induction users with
  | nil => simp at hmem
  | cons u us ih =>
    simp only [List.map_cons, List.nodup_cons] at hnd
    by_cases h : u.id = r.id
    · have hrest : ∀ v ∈ us, (if v.id = r.id then r else v) = v := by
        intro v hv
        have : v.id ≠ r.id := fun he => hnd.1 (h ▸ he ▸ List.mem_map_of_mem UserRecord.id hv)
        simp [this]
      simp only [upsertById, h, beq_self_eq_true, if_true, List.map_cons, if_pos h]
      rw [List.map_congr_left hrest, List.map_id']
    · have hb : (u.id == r.id) = false := by simp [h]
      have hmem' : r.id ∈ us.map UserRecord.id := by
        rcases List.mem_cons.mp hmem with he | hm
        · exact absurd he.symm h
        · exact hm
      simp only [upsertById, hb, Bool.false_eq_true, if_false, List.map_cons, if_neg h]
      rw [ih hnd.2 hmem']

/-- When the incoming id is not present, the scan reaches the end of the list
and appends the new record. -/
theorem upsertById_of_not_mem (r : UserRecord) (users : List UserRecord)
    (hmem : r.id ∉ users.map UserRecord.id) :
    upsertById r users = users ++ [r] := by
  induction users with
  | nil => rfl
  | cons u us ih =>
    simp only [List.map_cons, List.mem_cons, not_or] at hmem
    have hne : u.id ≠ r.id := fun he => hmem.1 he.symm
    have hb : (u.id == r.id) = false := by simp [hne]
    simp only [upsertById, hb, Bool.false_eq_true, if_false, List.cons_append]
    rw [ih hmem.2]

/-- The upsert never disturbs the id multiset of the untouched entries, so it
preserves id uniqueness. -/
theorem upsertById_nodup (r : UserRecord) (users : List UserRecord)
    (hnd : (users.map UserRecord.id).Nodup) :
    ((upsertById r users).map UserRecord.id).Nodup := by
  by_cases hmem : r.id ∈ users.map UserRecord.id
  · rw [upsertById_of_mem r users hnd hmem, List.map_map]
    have hcong : users.map (UserRecord.id ∘ fun u => if u.id = r.id then r else u)
        = users.map UserRecord.id :=
      List.map_congr_left (fun u _ => by by_cases h : u.id = r.id <;> simp [h])
    rw [hcong]
    exact hnd
  · rw [upsertById_of_not_mem r users hmem]
    simp [List.nodup_append, hnd, hmem]

/-- C2: under the at-most-one-record-per-id invariant, `add_authorized_user`
replaces the matching record in place when the id is already present (the
result is a pointwise map, so the length and the order and content of every
other entry are unchanged), appends the record at the end when the id is new,
and preserves the uniqueness invariant in both cases. -/
theorem add_authorized_user_spec (c : Config) (r : UserRecord)
    (hnd : ((c.authorized_users.getD []).map UserRecord.id).Nodup) :
    (r.id ∈ (c.authorized_users.getD []).map UserRecord.id →
      (add_authorized_user c r).authorized_users
        = some ((c.authorized_users.getD []).map (fun u => if u.id = r.id then r else u))
      ∧ ((add_authorized_user c r).authorized_users.getD []).length
        = (c.authorized_users.getD []).length)
    ∧ (r.id ∉ (c.authorized_users.getD []).map UserRecord.id →
      (add_authorized_user c r).authorized_users
        = some ((c.authorized_users.getD []) ++ [r]))
    ∧ (((add_authorized_user c r).authorized_users.getD []).map UserRecord.id).Nodup := by
  refine ⟨fun hm => ?_, fun hm => ?_, ?_⟩
  · rw [add_authorized_user, upsertById_of_mem r _ hnd hm]
    exact ⟨rfl, by simp⟩
  · rw [add_authorized_user, upsertById_of_not_mem r _ hm]
  · simpa [add_authorized_user] using upsertById_nodup r _ hnd

/-- A stored user record with id 1. -/
def userA : UserRecord :=
  { id := "1", username := some "a", global_name := none,
    dm_channel_id := none, authorized_at := none }

/-- A stored user record with id 2. -/
def userB : UserRecord :=
  { id := "2", username := some "b", global_name := none,
    dm_channel_id := none, authorized_at := none }

/-- An updated record carrying the already-present id 2. -/
def userB2 : UserRecord :=
  { id := "2", username := some "b2", global_name := some "B2",
    dm_channel_id := some "d", authorized_at := some "t" }

/-- A record with the fresh id 3. -/
def userC : UserRecord :=
  { id := "3", username := some "c", global_name := none,
    dm_channel_id := none, authorized_at := none }

/-- A configuration holding the two records `userA`, `userB`. -/
def cTwoUsers : Config := { emptyConfig with authorized_users := some [userA, userB] }

/-- C2, witness: upserting id 2 into `[userA, userB]` replaces the second
record in place and keeps ids unique; upserting the fresh id 3 appends. -/
theorem add_authorized_user_spec_witness :
    ((add_authorized_user cTwoUsers userB2).authorized_users
        = some ([userA, userB].map (fun u => if u.id = userB2.id then userB2 else u))
      ∧ ((add_authorized_user cTwoUsers userB2).authorized_users.getD []).length
        = ([userA, userB] : List UserRecord).length)
    ∧ (((add_authorized_user cTwoUsers userB2).authorized_users.getD []).map UserRecord.id).Nodup
    ∧ (add_authorized_user cTwoUsers userB2).authorized_users = some [userA, userB2]
    ∧ (add_authorized_user cTwoUsers userC).authorized_users = some [userA, userB, userC] := by
  refine ⟨(add_authorized_user_spec cTwoUsers userB2 (by decide)).1 (by decide),
          (add_authorized_user_spec cTwoUsers userB2 (by decide)).2.2, by decide, ?_⟩
  have h := (add_authorized_user_spec cTwoUsers userC (by decide)).2.1 (by decide)
  simpa using h

/-- C3: `send_and_report` never issues more than one send (no retry); a blank
message short-circuits with the empty-message error and zero network calls;
otherwise `send_message` is called exactly once and the notice follows the
outcome — 200 success, 429 a rate-limit notice echoing the `retry_after`
body value (a body with `retry_after = 3` yields a notice containing `3`),
403 the permission notice, 404 the channel-not-found notice, any other
status the generic notice with the numeric status and raw body, and a
transport failure the network-error notice. -/
theorem send_and_report_spec (content : String) (net : SendNet) :
    (send_and_report content net).2 ≤ 1
    ∧ (strippedEmpty content = true →
        send_and_report content net = ([.error "Message cannot be empty."], 0))
    ∧ (strippedEmpty content = false →
        (send_and_report content net).2 = 1
        ∧ (∀ r : SendResponse, net = SendNet.resp r →
            (r.status_code = 200 →
              (send_and_report content net).1 = [.success "Message sent!"])
            ∧ (r.status_code = 429 →
              (send_and_report content net).1
                = [.error ("Rate limited. Retry after "
                    ++ jsonGetD r.jsonObj "retry_after" "a few" ++ " seconds.")])
            ∧ (r.status_code = 429 → r.jsonObj.lookup "retry_after" = some (JVal.jnum 3) →
              ∃ a b, (send_and_report content net).1 = [.error (a ++ "3" ++ b)])
            ∧ (r.status_code = 403 →
              (send_and_report content net).1
                = [.error "Bot lacks permission to send messages here. Check bot roles in Discord."])
            ∧ (r.status_code = 404 →
              (send_and_report content net).1
                = [.error "Channel not found. It may have been deleted — try reloading."])
            ∧ (r.status_code ≠ 200 → r.status_code ≠ 429 → r.status_code ≠ 403 →
               r.status_code ≠ 404 →
              (send_and_report content net).1
                = [.error ("Discord API error (" ++ toString r.status_code ++ "): " ++ r.text)]))
        ∧ (∀ m : String, net = SendNet.exn m →
            (send_and_report content net).1 = [.error ("Network error: " ++ m)])) := by
  by_cases hb : strippedEmpty content = true
  · refine ⟨?_, fun _ => by simp [send_and_report, hb], fun hf => absurd hb (by simp [hf])⟩
    simp [send_and_report, hb]
  · have hb' : strippedEmpty content = false := by simpa using hb
    refine ⟨?_, fun h => absurd h hb, fun _ => ⟨?_, fun r hr => ?_, fun m hm => ?_⟩⟩
    · unfold send_and_report send_message
      simp only [hb', Bool.false_eq_true, if_false]
      cases net with
      | exn m => simp
      | resp r => dsimp only; split_ifs <;> simp
    · unfold send_and_report send_message
      simp only [hb', Bool.false_eq_true, if_false]
      cases net with
      | exn m => simp
      | resp r => dsimp only; split_ifs <;> simp
    · subst hr
      refine ⟨fun h200 => ?_, fun h429 => ?_, fun h429 hra => ?_, fun h403 => ?_,
              fun h404 => ?_, fun h1 h2 h3 h4 => ?_⟩
      · simp [send_and_report, send_message, hb', h200]
      · simp [send_and_report, send_message, hb', h429]
      · refine ⟨"Rate limited. Retry after ", " seconds.", ?_⟩
        simp [send_and_report, send_message, hb', h429, jsonGetD, hra, jShow]
        decide
      · simp [send_and_report, send_message, hb', h403]
      · simp [send_and_report, send_message, hb', h404]
      · simp [send_and_report, send_message, hb', h1, h2, h3, h4]
    · subst hm
      simp [send_and_report, send_message, hb']

/-- A simulated 429 response whose JSON body is `{"retry_after": 3}`. -/
def rate429 : SendResponse :=
  { status_code := 429, jsonObj := [("retry_after", JVal.jnum 3)], text := "rate limited" }

/-- C3, witness: an all-whitespace message — ASCII spaces, and a sole
NO-BREAK SPACE (U+00A0), whitespace to Python though not ASCII — reports the
empty-message error with zero sends, and a non-blank message against a
simulated 429 with body `retry_after = 3` performs exactly one send and
reports a rate-limit notice containing `3`. -/
theorem send_and_report_spec_witness :
    send_and_report "   " (SendNet.resp rate429) = ([.error "Message cannot be empty."], 0)
    ∧ send_and_report "\u00A0" (SendNet.resp rate429)
        = ([.error "Message cannot be empty."], 0)
    ∧ (send_and_report "hi" (SendNet.resp rate429)).2 = 1
    ∧ (send_and_report "hi" (SendNet.resp rate429)).1
        = [.error "Rate limited. Retry after 3 seconds."]
    ∧ (∃ a b, (send_and_report "hi" (SendNet.resp rate429)).1 = [.error (a ++ "3" ++ b)]) := by
  have h := (send_and_report_spec "hi" (SendNet.resp rate429)).2.2 (by decide)
  refine ⟨(send_and_report_spec "   " (SendNet.resp rate429)).2.1 (by decide),
          (send_and_report_spec "\u00A0" (SendNet.resp rate429)).2.1 (by decide),
          h.1, ?_, (h.2.1 rate429 rfl).2.2.1 rfl (by decide)⟩
  rw [(h.2.1 rate429 rfl).2.1 rfl]
  decide

/-- C4: if any step of the OAuth2 callback sequence raises an HTTP error or
a network error, the flow aborts without writing the configuration file (no
partial persist), clears the query parameters, and displays an error
notice. -/
theorem oauth_callback_spec (config : Config) (oauth_guild_id now : String)
    (exchange : StepResult TokenData) (identity : StepResult OAuthUser)
    (dm : StepResult DmChannel)
    (hfail : ¬(exchange.isOk = true ∧ identity.isOk = true ∧ dm.isOk = true)) :
    (oauth_callback config oauth_guild_id now exchange identity dm).persisted = none
    ∧ (oauth_callback config oauth_guild_id now exchange identity dm).queryCleared = true
    ∧ ∃ m, Notice.error m ∈ (oauth_callback config oauth_guild_id now exchange identity dm).notices := by
  cases exchange with
  | httpError s t =>
    exact ⟨rfl, rfl, "OAuth2 error: " ++ toString s ++ " — " ++ t, by simp [oauth_callback]⟩
  | netError m =>
    exact ⟨rfl, rfl, "Network error during OAuth2: " ++ m, by simp [oauth_callback]⟩
  | ok tok =>
    cases identity with
    | httpError s t =>
      exact ⟨rfl, rfl, "OAuth2 error: " ++ toString s ++ " — " ++ t, by simp [oauth_callback]⟩
    | netError m =>
      exact ⟨rfl, rfl, "Network error during OAuth2: " ++ m, by simp [oauth_callback]⟩
    | ok user_data =>
      cases dm with
      | httpError s t =>
        exact ⟨rfl, rfl, "OAuth2 error: " ++ toString s ++ " — " ++ t, by simp [oauth_callback]⟩
      | netError m =>
        exact ⟨rfl, rfl, "Network error during OAuth2: " ++ m, by simp [oauth_callback]⟩
      | ok dm_channel => exact absurd ⟨rfl, rfl, rfl⟩ hfail

/-- C4, witness: a failing identity lookup (HTTP 401) aborts the callback
with nothing persisted, the query parameters cleared and an error shown. -/
theorem oauth_callback_spec_witness :
    (oauth_callback cTwoUsers "9" "T0" (StepResult.ok ⟨"tok"⟩)
        (StepResult.httpError 401 "unauthorized") (StepResult.ok ⟨"dm1"⟩)).persisted = none
    ∧ (oauth_callback cTwoUsers "9" "T0" (StepResult.ok ⟨"tok"⟩)
        (StepResult.httpError 401 "unauthorized") (StepResult.ok ⟨"dm1"⟩)).queryCleared = true
    ∧ ∃ m, Notice.error m ∈ (oauth_callback cTwoUsers "9" "T0" (StepResult.ok ⟨"tok"⟩)
        (StepResult.httpError 401 "unauthorized") (StepResult.ok ⟨"dm1"⟩)).notices :=
  oauth_callback_spec cTwoUsers "9" "T0" (StepResult.ok ⟨"tok"⟩)
    (StepResult.httpError 401 "unauthorized") (StepResult.ok ⟨"dm1"⟩) (by decide)

/-- Inserting an element into a list leaves the sublist of any fixed sort key
untouched except for prepending the element when it carries that key: the
strict comparison in the fall-through branch cannot pass an element with an
equal key. -/
theorem filter_orderedInsert (k : Int) (x : Channel) (l : List Channel) :
    (List.orderedInsert channelLE x l).filter (fun ch => posKey ch == k)
      = if posKey x = k then x :: l.filter (fun ch => posKey ch == k)
        else l.filter (fun ch => posKey ch == k) := by
  induction l with
  | nil =>
    by_cases hx : posKey x = k <;> simp [List.orderedInsert, hx]
  | cons y ys ih =>
    by_cases hle : channelLE x y
    · rw [List.orderedInsert_of_le _ _ hle]
      by_cases hx : posKey x = k <;> simp [List.filter_cons, hx]
    · have hlt : posKey y < posKey x := by
        have := hle
        unfold channelLE at this
        omega
      simp only [List.orderedInsert, if_neg hle]
      by_cases hx : posKey x = k
      · have hy : ¬ posKey y = k := by omega
        simp [List.filter_cons, hx, hy, ih]
      · by_cases hy : posKey y = k <;> simp [List.filter_cons, hx, hy, ih]

/-- Stability of the channel sort: for every sort key, the sublist of
entries carrying that key is unchanged by the sort — ties keep their
original relative order. -/
theorem filter_insertionSort (k : Int) (l : List Channel) :
    (List.insertionSort channelLE l).filter (fun ch => posKey ch == k)
      = l.filter (fun ch => posKey ch == k) := by
  induction l with
  | nil => rfl
  | cons x xs ih =>
    simp only [List.insertionSort]
    rw [filter_orderedInsert]
    by_cases hx : posKey x = k <;> simp [List.filter_cons, hx, ih]

/-- C5: on a successful response, `get_guild_channels` returns exactly the
entries whose `type` is 0 (as a multiset: a permutation of the filtered
input), sorted ascending by `position`, with ties keeping their original
relative order (for every key the equal-key sublist of the output equals the
equal-key sublist of the filtered input). -/
theorem get_guild_channels_spec (status : Nat) (text : String) (body : List Channel)
    (hok : status < 400) :
    ∃ out, get_guild_channels (.response status text body) = .ok out
      ∧ out.Perm (body.filter (fun ch => ch.type == 0))
      ∧ out.Pairwise (fun a b => posKey a ≤ posKey b)
      ∧ ∀ k : Int, out.filter (fun ch => posKey ch == k)
          = (body.filter (fun ch => ch.type == 0)).filter (fun ch => posKey ch == k) := by
  have hraise : raiseForStatus status = false := by
    simp only [raiseForStatus, Bool.and_eq_false_iff, decide_eq_false_iff_not]
    omega
  refine ⟨List.insertionSort channelLE (body.filter (fun ch => ch.type == 0)),
    by simp [get_guild_channels, hraise], List.perm_insertionSort channelLE _,
    List.sorted_insertionSort channelLE _, fun k => filter_insertionSort k _⟩

/-- A text channel at position 2. -/
def chA : Channel := { id := "a", name := "general", type := 0, position := some 2 }

/-- A voice channel (type 2), to be filtered out. -/
def chB : Channel := { id := "b", name := "voice", type := 2, position := some 0 }

/-- A text channel at position 1. -/
def chC : Channel := { id := "c", name := "alpha", type := 0, position := some 1 }

/-- A second text channel at position 1 (a tie with `chC`). -/
def chD : Channel := { id := "d", name := "beta", type := 0, position := some 1 }

/-- A text channel with no `position` key. -/
def chE : Channel := { id := "e", name := "nopos", type := 0, position := none }

/-- A text channel at position 0. -/
def chF : Channel := { id := "f", name := "zero", type := 0, position := some 0 }

/-- A channel-list body with a non-text entry, a position tie and a missing
position. -/
def chBody : List Channel := [chA, chB, chC, chD, chE]

/-- C5, witness: the concrete body keeps only the four text channels, sorted
by position with the tied pair `chC`, `chD` in original order. -/
theorem get_guild_channels_spec_witness :
    (∃ out, get_guild_channels (.response 200 "" chBody) = .ok out
      ∧ out.Perm (chBody.filter (fun ch => ch.type == 0))
      ∧ out.Pairwise (fun a b => posKey a ≤ posKey b)
      ∧ ∀ k : Int, out.filter (fun ch => posKey ch == k)
          = (chBody.filter (fun ch => ch.type == 0)).filter (fun ch => posKey ch == k))
    ∧ get_guild_channels (.response 200 "" chBody) = .ok [chE, chC, chD, chA] :=
  ⟨get_guild_channels_spec 200 "" chBody (by decide), by rfl⟩

/-- In a list sorted ascending by `posKey`, an entry with no `position` key
(key 0) sits strictly before every entry with a positive key. -/
theorem missing_position_before_positive {l : List Channel}
    (hs : l.Pairwise channelLE) (i j : Fin l.length)
    (hi : (l.get i).position = none) (hj : 0 < posKey (l.get j)) : (i : ℕ) < (j : ℕ) := by
  rw [List.pairwise_iff_get] at hs
  by_contra hij
  push_neg at hij
  have hzero : posKey (l.get i) = 0 := by unfold posKey; rw [hi]; rfl
  rcases Nat.lt_or_ge (j : ℕ) (i : ℕ) with hlt | hge
  · have := hs j i hlt
    unfold channelLE at this
    omega
  · have heq : i = j := Fin.ext (le_antisymm hge hij)
    rw [heq] at hzero
    omega

/-- C9: the sort key of a channel lacking `position` is 0, so on a
successful response such channels appear before every channel with a
positive position, tie with explicit position-0 channels in original
relative order, and the sort always succeeds (the result is `.ok`). -/
theorem get_guild_channels_missing_position (status : Nat) (text : String)
    (body : List Channel) (hok : status < 400) :
    ∃ out, get_guild_channels (.response status text body) = .ok out
      ∧ (∀ ch ∈ out, ch.position = none → posKey ch = 0)
      ∧ (∀ i j : Fin out.length, (out.get i).position = none →
          0 < posKey (out.get j) → (i : ℕ) < (j : ℕ))
      ∧ out.filter (fun ch => posKey ch == 0)
          = (body.filter (fun ch => ch.type == 0)).filter (fun ch => posKey ch == 0) := by
  have hraise : raiseForStatus status = false := by
    simp only [raiseForStatus, Bool.and_eq_false_iff, decide_eq_false_iff_not]
    omega
  refine ⟨List.insertionSort channelLE (body.filter (fun ch => ch.type == 0)),
    by simp [get_guild_channels, hraise], ?_, ?_, filter_insertionSort 0 _⟩
  · intro ch _ hch
    simp [posKey, hch]
  · intro i j hi hj
    exact missing_position_before_positive
      (List.sorted_insertionSort channelLE _) i j hi hj

/-- A channel-list body exercising the missing-position default: `chF` has
explicit position 0 and `chE` has no position at all. -/
def chBody9 : List Channel := [chA, chF, chE]

/-- C9, witness: with positions `2`, `0` and absent, the output puts the
position-0 and missing-position channels first, in original relative order,
before the positive position. -/
theorem get_guild_channels_missing_position_witness :
    (∃ out, get_guild_channels (.response 200 "ok" chBody9) = .ok out
      ∧ (∀ ch ∈ out, ch.position = none → posKey ch = 0)
      ∧ (∀ i j : Fin out.length, (out.get i).position = none →
          0 < posKey (out.get j) → (i : ℕ) < (j : ℕ))
      ∧ out.filter (fun ch => posKey ch == 0)
          = (chBody9.filter (fun ch => ch.type == 0)).filter (fun ch => posKey ch == 0))
    ∧ get_guild_channels (.response 200 "ok" chBody9) = .ok [chF, chE, chA] :=
  ⟨get_guild_channels_missing_position 200 "ok" chBody9 (by decide), by rfl⟩

/-- C6: `display_messages` renders the placeholder (and nothing else, hence
no error) on the empty list; on a non-empty list it renders the messages in
reversed (chronological) order, one line per message; a line is tagged
"assistant" exactly when the author id equals the bot id and "user"
otherwise; the time is the `%Y-%m-%d %H:%M` rendering of the parsed
local time, and the empty string when the timestamp does not parse. -/
theorem display_messages_spec (messages : List Message) (bot_id : String)
    (localTime : String → Option LocalDateTime) :
    display_messages [] bot_id localTime = .placeholder "No messages yet."
    ∧ (messages ≠ [] →
        display_messages messages bot_id localTime
          = .transcript (messages.reverse.map (renderLine bot_id localTime)))
    ∧ (∀ msg : Message,
        ((renderLine bot_id localTime msg).role = "assistant"
          ↔ (msg.author.getD emptyAuthor).id = some bot_id)
        ∧ ((renderLine bot_id localTime msg).role = "user"
          ↔ (msg.author.getD emptyAuthor).id ≠ some bot_id))
    ∧ (∀ msg : Message, ∀ t : LocalDateTime,
        localTime (msg.timestamp.getD "") = some t →
        (renderLine bot_id localTime msg).time = strftimeYmdHm t)
    ∧ (∀ msg : Message, localTime (msg.timestamp.getD "") = none →
        (renderLine bot_id localTime msg).time = "") := by
  refine ⟨rfl, fun h => ?_, fun msg => ?_, fun msg t ht => ?_, fun msg ht => ?_⟩
  · simp [display_messages, h]
  · unfold renderLine
    by_cases hid : (msg.author.getD emptyAuthor).id = some bot_id <;> simp [hid]
  · unfold renderLine
    simp [ht]
  · unfold renderLine
    simp [ht]

/-- A message authored by the bot account. -/
def botMsg : Message :=
  { author := some { id := some "BOT", global_name := none, username := none },
    content := some "hi", timestamp := some "2024-01-01T00:00:00+00:00" }

/-- A parse-and-localise oracle whose environment timezone is UTC and whose
parser accepts exactly the one timestamp of `botMsg`. -/
def utcJan2024 : String → Option LocalDateTime := fun s =>
  if s == "2024-01-01T00:00:00+00:00" then some ⟨2024, 1, 1, 0, 0⟩ else none

/-- C6, witness: the empty feed renders the placeholder; the one-message feed
renders a single line tagged "assistant" with time `2024-01-01 00:00`; an
unparseable timestamp renders the empty time. -/
theorem display_messages_spec_witness :
    display_messages [] "BOT" utcJan2024 = .placeholder "No messages yet."
    ∧ display_messages [botMsg] "BOT" utcJan2024
        = .transcript ([botMsg].reverse.map (renderLine "BOT" utcJan2024))
    ∧ ((renderLine "BOT" utcJan2024 botMsg).role = "assistant"
        ↔ (botMsg.author.getD emptyAuthor).id = some "BOT")
    ∧ (renderLine "BOT" utcJan2024 botMsg).time = strftimeYmdHm ⟨2024, 1, 1, 0, 0⟩
    ∧ (renderLine "BOT" utcJan2024 { botMsg with timestamp := some "garbage" }).time = ""
    ∧ display_messages [botMsg] "BOT" utcJan2024
        = .transcript [{ role := "assistant", name := "Unknown",
                         time := "2024-01-01 00:00", content := "hi" }] := by
  have h := display_messages_spec [botMsg] "BOT" utcJan2024
  exact ⟨h.1, h.2.1 (by decide), (h.2.2.1 botMsg).1,
    h.2.2.2.1 botMsg ⟨2024, 1, 1, 0, 0⟩ (by decide),
    h.2.2.2.2 { botMsg with timestamp := some "garbage" } (by decide), by decide⟩

/-- C7: whenever the configuration holds at least one authorized user or a
non-empty `channel_id`, `show_onboarding` renders the status summary — it
contains the Open-Admin-Dashboard link and no wizard step at all (no
subheader, no step-selection button), whatever the session state; only when
both are absent does the wizard render, and on a fresh session it starts at
the `choose` step (and the status summary link is then absent). -/
theorem show_onboarding_spec (config : Config) (oauthAvailable : Bool)
    (sessionStep : Option String) :
    ((config.authorized_users.getD [] ≠ [] ∨ pyTruthy config.channel_id = true) →
      El.markdown "[Open Admin Dashboard](?admin)"
          ∈ show_onboarding config oauthAvailable sessionStep
      ∧ (∀ s, El.subheader s ∉ show_onboarding config oauthAvailable sessionStep)
      ∧ (∀ s, El.actionButton s ∉ show_onboarding config oauthAvailable sessionStep))
    ∧ ((config.authorized_users.getD [] = [] ∧ pyTruthy config.channel_id = false) →
      El.subheader "Trading Signals on Discord"
          ∈ show_onboarding config oauthAvailable none
      ∧ El.markdown "[Open Admin Dashboard](?admin)"
          ∉ show_onboarding config oauthAvailable none) := by
  constructor
  · intro h
    have hcond : (!(config.authorized_users.getD []).isEmpty
        || pyTruthy config.channel_id) = true := by
      rcases h with h | h
      · simp [List.isEmpty_iff, h]
      · simp [h]
    unfold show_onboarding
    simp only [hcond, if_true]
    refine ⟨?_, fun s => ?_, fun s => ?_⟩ <;> split_ifs <;> simp
  · rintro ⟨h1, h2⟩
    have hcond : (!(config.authorized_users.getD []).isEmpty
        || pyTruthy config.channel_id) = false := by
      simp [List.isEmpty_iff, h1, h2]
    unfold show_onboarding
    simp only [hcond, Bool.false_eq_true, if_false]
    constructor <;> simp

/-- A configuration with one connected user and no channel. -/
def cOneUser : Config := { emptyConfig with authorized_users := some [userA] }

/-- C7, witness: with one authorized user the status summary renders (even
with a stale wizard session step); with an empty configuration the wizard
renders at the `choose` step. -/
theorem show_onboarding_spec_witness :
    (El.markdown "[Open Admin Dashboard](?admin)" ∈ show_onboarding cOneUser true (some "dm")
      ∧ (∀ s, El.subheader s ∉ show_onboarding cOneUser true (some "dm"))
      ∧ (∀ s, El.actionButton s ∉ show_onboarding cOneUser true (some "dm")))
    ∧ (El.subheader "Trading Signals on Discord" ∈ show_onboarding emptyConfig true none
      ∧ El.markdown "[Open Admin Dashboard](?admin)" ∉ show_onboarding emptyConfig true none) :=
  ⟨(show_onboarding_spec cOneUser true (some "dm")).1 (Or.inl (by decide)),
   (show_onboarding_spec emptyConfig true none).2 ⟨rfl, rfl⟩⟩

/-- C8, counterexample: 304 is not a 2xx status, yet none of
`get_guild_channels`, `open_dm_channel`, `get_messages` raises on it —
`raise_for_status` only raises for 4xx/5xx, so the claimed
raise-on-every-non-2xx behaviour fails at status 304. -/
theorem raise_convention_counterexample :
    (304 < 200 ∨ 300 ≤ 304)
    ∧ get_guild_channels (.response 304 "not modified" ([] : List Channel)) = .ok []
    ∧ open_dm_channel (.response 304 "not modified" ⟨"d"⟩) = .ok ⟨"d"⟩
    ∧ get_messages (.response 304 "not modified" ([] : List Message)) = .ok [] :=
  ⟨by omega, rfl, rfl, rfl⟩

/-- C8 (amended): `send_message` returns the response unchanged for every
status and never raises (only a transport failure propagates), while
`get_guild_channels`, `open_dm_channel` and `get_messages` raise an API
error exactly on statuses in `[400, 600)` (the `raise_for_status` range) —
statuses outside that range, 2xx or not, yield a successful return. -/
theorem raise_convention_spec (status : Nat) (text : String)
    (chBody : List Channel) (dmBody : DmChannel) (msgBody : List Message)
    (r : SendResponse) :
    send_message (SendNet.resp r) = SendNet.resp r
    ∧ (∀ m, send_message (SendNet.exn m) = SendNet.exn m)
    ∧ ((400 ≤ status ∧ status < 600) →
        get_guild_channels (.response status text chBody) = .error (.http status text)
        ∧ open_dm_channel (.response status text dmBody) = .error (.http status text)
        ∧ get_messages (.response status text msgBody) = .error (.http status text))
    ∧ ((status < 400 ∨ 600 ≤ status) →
        (∃ out, get_guild_channels (.response status text chBody) = .ok out)
        ∧ open_dm_channel (.response status text dmBody) = .ok dmBody
        ∧ get_messages (.response status text msgBody) = .ok msgBody) := by
  refine ⟨rfl, fun m => rfl, fun h => ?_, fun h => ?_⟩
  · have hr : raiseForStatus status = true := by
      simp only [raiseForStatus, Bool.and_eq_true, decide_eq_true_eq]
      omega
    exact ⟨by simp [get_guild_channels, hr], by simp [open_dm_channel, hr],
      by simp [get_messages, hr]⟩
  · have hr : raiseForStatus status = false := by
      simp only [raiseForStatus, Bool.and_eq_false_iff, decide_eq_false_iff_not]
      omega
    exact ⟨⟨List.insertionSort channelLE (chBody.filter (fun ch => ch.type == 0)),
        by simp [get_guild_channels, hr]⟩,
      by simp [open_dm_channel, hr], by simp [get_messages, hr]⟩

/-- C8, witness: a 404 raises the API error in the three raising wrappers, a
204 (non-2xx-is-irrelevant here: outside the raise range) does not, and
`send_message` hands back a 429 response unchanged. -/
theorem raise_convention_spec_witness :
    send_message (SendNet.resp rate429) = SendNet.resp rate429
    ∧ get_guild_channels (.response 404 "nf" chBody) = .error (.http 404 "nf")
    ∧ open_dm_channel (.response 404 "nf" ⟨"d"⟩) = .error (.http 404 "nf")
    ∧ get_messages (.response 404 "nf" ([] : List Message)) = .error (.http 404 "nf")
    ∧ (∃ out, get_guild_channels (.response 204 "" chBody) = .ok out) := by
  have h404 := (raise_convention_spec 404 "nf" chBody ⟨"d"⟩ ([] : List Message) rate429).2.2.1
    ⟨by omega, by omega⟩
  have h204 := (raise_convention_spec 204 "" chBody ⟨"d"⟩ ([] : List Message) rate429).2.2.2
    (Or.inl (by omega))
  exact ⟨rfl, h404.1, h404.2.1, h404.2.2, h204.1⟩

/-- C10: the display name is chosen by truthiness, not mere presence — in
`display_messages` a `global_name` that is absent or empty falls back to
`username`, and "Unknown" is rendered only when `username` is also absent
(a truthy `global_name` always wins); the stored-record name shown in the
status summary (and in the admin user lists, which evaluate the same
`statusName` expression) obeys the same preference with default "?", and the
status summary line is built from `statusName`. -/
theorem display_name_truthiness (a : Author) (u : UserRecord) (c : Config) :
    ((a.global_name = none ∨ a.global_name = some "") →
      ∀ (bot : String) (localTime : String → Option LocalDateTime)
        (content ts : Option String),
        (renderLine bot localTime
          { author := some a, content := content, timestamp := ts }).name
          = a.username.getD "Unknown")
    ∧ ((a.global_name = none ∨ a.global_name = some "") → a.username = none →
      ∀ (bot : String) (localTime : String → Option LocalDateTime)
        (content ts : Option String),
        (renderLine bot localTime
          { author := some a, content := content, timestamp := ts }).name = "Unknown")
    ∧ (∀ s, a.global_name = some s → s ≠ "" →
      ∀ (bot : String) (localTime : String → Option LocalDateTime)
        (content ts : Option String),
        (renderLine bot localTime
          { author := some a, content := content, timestamp := ts }).name = s)
    ∧ ((u.global_name = none ∨ u.global_name = some "") →
        statusName u = u.username.getD "?")
    ∧ (∀ (users : List UserRecord) (oauthAvailable : Bool) (step : Option String),
        users ≠ [] →
        El.success ("Connected: **"
            ++ String.intercalate ", " (users.map statusName) ++ "**")
          ∈ show_onboarding { c with authorized_users := some users } oauthAvailable step) := by
  refine ⟨fun hg bot localTime content ts => ?_, fun hg hu bot localTime content ts => ?_,
    fun s hs hne bot localTime content ts => ?_, fun hg => ?_,
    fun users oa step hu => ?_⟩
  · rcases hg with hg | hg <;> simp [renderLine, pyOr, hg]
  · rcases hg with hg | hg <;> simp [renderLine, pyOr, hg, hu]
  · simp [renderLine, pyOr, hs, hne]
  · rcases hg with hg | hg <;> simp [statusName, pyOr, hg]
  · have hne : users.isEmpty = false := by simp [List.isEmpty_iff, hu]
    unfold show_onboarding
    simp only [Option.getD_some, hne, Bool.not_false, Bool.true_or, if_true]
    split_ifs <;> simp

/-- An author with an empty profile display name and a raw handle. -/
def authorEmptyGn : Author := { id := none, global_name := some "", username := some "alice" }

/-- An author with no name fields at all. -/
def authorNameless : Author := { id := none, global_name := none, username := none }

/-- A stored record with an empty `global_name` and username `bob`. -/
def userEmptyGn : UserRecord :=
  { id := "9", username := some "bob", global_name := some "",
    dm_channel_id := none, authorized_at := none }

/-- C10, witness: an empty `global_name` falls back to the handle, a fully
nameless author renders "Unknown", the stored-record name falls back with
default "?", and the status summary renders the fallback name. -/
theorem display_name_truthiness_witness :
    (renderLine "B" utcJan2024
      { author := some authorEmptyGn, content := some "x", timestamp := none }).name = "alice"
    ∧ (renderLine "B" utcJan2024
      { author := some authorNameless, content := some "x", timestamp := none }).name = "Unknown"
    ∧ statusName userEmptyGn = "bob"
    ∧ El.success ("Connected: **"
          ++ String.intercalate ", " ([userEmptyGn].map statusName) ++ "**")
        ∈ show_onboarding { emptyConfig with authorized_users := some [userEmptyGn] } false none
    ∧ El.success "Connected: **bob**"
        ∈ show_onboarding { emptyConfig with authorized_users := some [userEmptyGn] } false none := by
  have h := display_name_truthiness authorEmptyGn userEmptyGn emptyConfig
  have h2 := display_name_truthiness authorNameless userEmptyGn emptyConfig
  refine ⟨?_, ?_, ?_, ?_, by decide⟩
  · have := h.1 (Or.inr rfl) "B" utcJan2024 (some "x") none
    simpa using this
  · exact h2.2.1 (Or.inl rfl) rfl "B" utcJan2024 (some "x") none
  · have := h.2.2.2.1 (Or.inr rfl)
    simpa using this
  · exact h.2.2.2.2 [userEmptyGn] false none (by decide)
